import Mathlib

/-!
Verification development for the gpt_extension repository.

The repository is a browser extension: a background coordinator
(src/background.js and src/src/background/background.js) dispatches typed
messages, a Lighthouse-style audit service (src/services/lighthouse-service.js)
produces performance scores, and front surfaces (src/popup.js,
src/src/gpt-popup/GPTChatApp.tsx) filter broadcast messages by target name.

JavaScript numbers are modelled as exact rationals, JS exceptions as
Except String results, and external collaborators (chrome.* APIs, the
OpenAI-backed GPTService network call, Math.random, Date.now) as an explicit
environment record supplying the outcome of each external operation.
-/

namespace Ext

/-- JS Math.round on exact rationals: round half towards positive infinity. -/
def jsRound (q : ℚ) : ℤ := ⌊q + 1/2⌋

/-- JS string truthiness for an optional string value: undefined and the empty
string are falsy. Models the idiom value or null applied to a string field. -/
def jsStrOrNull (v : Option String) : Option String :=
  match v with
  | none => none
  | some s => if s = "" then none else some s

/-- Models String.prototype.trim: strip whitespace from both ends. Written
with structural recursion so that concrete inputs evaluate inside proofs. -/
def jsTrim (s : String) : String :=
  ⟨((s.data.dropWhile Char.isWhitespace).reverse.dropWhile
    Char.isWhitespace).reverse⟩

/-- Models String.prototype.startsWith, written on the character list so
that concrete inputs evaluate inside proofs. -/
def jsStartsWith (s pre : String) : Bool := pre.data.isPrefixOf s.data

/-- Whether the needle occurs as a contiguous run inside the haystack. -/
def charsContain (needle : List Char) : List Char → Bool
  | [] => needle.isPrefixOf []
  | c :: cs => needle.isPrefixOf (c :: cs) || charsContain needle cs

/-- Whether one string contains another as a substring. -/
def strContainsPhrase (hay needle : String) : Bool :=
  charsContain needle.data hay.data

/-! ## Lighthouse service: metric and score records
(src/services/lighthouse-service.js) -/

/-- The web-vitals metric record consumed and produced by LighthouseService. -/
structure Metrics where
  loadTime : ℚ
  domContentLoaded : ℚ
  firstPaint : ℚ
  firstContentfulPaint : ℚ
  largestContentfulPaint : ℚ
  cumulativeLayoutShift : ℚ
deriving DecidableEq, Repr

/-- The five category scores returned by calculateScores / getMockResults. -/
structure Scores where
  performance : ℤ
  accessibility : ℤ
  bestPractices : ℤ
  seo : ℤ
  overall : ℤ
deriving DecidableEq, Repr

/-- The four-way category block duplicated in the results object. -/
structure Categories where
  performance : ℤ
  accessibility : ℤ
  bestPractices : ℤ
  seo : ℤ
deriving DecidableEq, Repr

/-- The full audit result record (url, title, timestamp, metrics, scores,
categories), as built by collectPerformanceMetrics and getMockResults. -/
structure AuditResult where
  url : String
  title : String
  timestamp : ℤ
  metrics : Metrics
  scores : Scores
  categories : Categories
deriving DecidableEq, Repr

/-- LighthouseService.calculatePerformanceScore, lines 180-204: start at 100,
subtract one capped penalty per metric over its threshold, then
Math.max(0, Math.round(score)). -/
def calculatePerformanceScore (m : Metrics) : ℤ :=
  let score : ℚ := 100
  let score := if m.firstContentfulPaint > 1800 then
    score - min 30 ((m.firstContentfulPaint - 1800) / 100) else score
  let score := if m.largestContentfulPaint > 2500 then
    score - min 25 ((m.largestContentfulPaint - 2500) / 100) else score
  let score := if m.loadTime > 3000 then
    score - min 25 ((m.loadTime - 3000) / 200) else score
  let score := if m.cumulativeLayoutShift > 0.1 then
    score - min 20 (m.cumulativeLayoutShift * 100) else score
  max 0 (jsRound score)

/-- One call of Math.floor(Math.random() * scale) + base, where draw is the
value the environment supplies for that Math.random() call. -/
def jsRandFloor (draw : ℚ) (scale base : ℤ) : ℤ := ⌊draw * scale⌋ + base

/-- LighthouseService.calculateScores, lines 167-178. The rand argument gives
the successive Math.random() draws, in the evaluation order of the object
literal (accessibility, bestPractices, seo). The overall field is computed
from the performance variable and the literal constants 80, 75, 85. -/
def calculateScores (rand : ℕ → ℚ) (m : Metrics) : Scores :=
  let performance := calculatePerformanceScore m
  { performance := performance
    accessibility := jsRandFloor (rand 0) 20 80
    bestPractices := jsRandFloor (rand 1) 20 75
    seo := jsRandFloor (rand 2) 20 85
    overall := jsRound (((performance : ℚ) + 80 + 75 + 85) / 4) }

/-- LighthouseService.getMockResults, lines 215-242. The rand argument gives
the successive Math.random() draws in object-literal evaluation order
(six metric draws, five score draws, four category draws); now is Date.now. -/
def getMockResults (rand : ℕ → ℚ) (now : ℤ) (url : String) : AuditResult :=
  { url := url
    title := "Mock Lighthouse Report"
    timestamp := now
    metrics :=
      { loadTime := (jsRandFloor (rand 0) 2000 1000 : ℚ)
        domContentLoaded := (jsRandFloor (rand 1) 1500 800 : ℚ)
        firstPaint := (jsRandFloor (rand 2) 1000 500 : ℚ)
        firstContentfulPaint := (jsRandFloor (rand 3) 1200 600 : ℚ)
        largestContentfulPaint := (jsRandFloor (rand 4) 2000 1000 : ℚ)
        cumulativeLayoutShift := rand 5 * 0.3 }
    scores :=
      { performance := jsRandFloor (rand 6) 40 60
        accessibility := jsRandFloor (rand 7) 20 80
        bestPractices := jsRandFloor (rand 8) 20 75
        seo := jsRandFloor (rand 9) 20 85
        overall := jsRandFloor (rand 10) 30 70 }
    categories :=
      { performance := jsRandFloor (rand 11) 40 60
        accessibility := jsRandFloor (rand 12) 20 80
        bestPractices := jsRandFloor (rand 13) 20 75
        seo := jsRandFloor (rand 14) 20 85 } }

/-- An environment-supplied Math.random sequence is valid when every draw lies
in the half-open unit interval. -/
def ValidRand (rand : ℕ → ℚ) : Prop := ∀ i, 0 ≤ rand i ∧ rand i < 1

/-! ## Lighthouse service: runAudit concurrency guard
(src/services/lighthouse-service.js lines 5-41)

The service instance state is the isRunning flag; inFlight counts audit bodies
that have passed the guard and not yet reached either exit. The guard check
and the flag assignment in runAudit execute with no await between them, so a
start event is atomic in the single-threaded JS event loop. -/

structure LHState where
  isRunning : Bool
  inFlight : ℕ
deriving DecidableEq, Repr

/-- The initial LighthouseService state (constructor, lines 5-8). -/
def lhInit : LHState := { isRunning := false, inFlight := 0 }

/-- The synchronous prefix of runAudit (lines 11-15): reject if the flag is
set, otherwise set the flag and enter the audit body. -/
def startAudit (s : LHState) : Except String LHState :=
  if s.isRunning then .error "Lighthouse audit is already running"
  else .ok { isRunning := true, inFlight := s.inFlight + 1 }

/-- The exit of a runAudit body: lines 32-35 on success and 36-40 on failure
both clear the flag before returning or rethrowing. -/
def finishAudit (s : LHState) : LHState :=
  { isRunning := false, inFlight := s.inFlight - 1 }

/-- Interleaving semantics of the service: a step is an accepted start, a
rejected start (which leaves the state unchanged), or the completion (success
or failure) of an audit body that is in flight. -/
inductive LHStep : LHState → LHState → Prop
  | start (s t : LHState) : startAudit s = .ok t → LHStep s t
  | startRejected (s : LHState) (e : String) :
      startAudit s = .error e → LHStep s s
  | finish (ok : Bool) (s : LHState) : s.inFlight ≠ 0 → LHStep s (finishAudit s)

/-- States reachable from the freshly constructed service. -/
def LHReachable (s : LHState) : Prop := Relation.ReflTransGen LHStep lhInit s

/-! ## Cross-context message layer: shared data model
(src/background.js and src/src/background/background.js) -/

/-- The opaque payload returned by GPTService.sendRequest (the GPT service
source is outside this repository snapshot; the coordinator forwards the
object verbatim, so only its identity matters here). -/
structure GPTResp where
  content : String
deriving DecidableEq, Repr

/-- Payload of a SET_API_KEY message: message.data.apiKey. -/
structure SetKeyData where
  apiKey : String
deriving DecidableEq, Repr

/-- Payload of a RUN_LIGHTHOUSE_AUDIT / LIGHTHOUSE_REQUEST message; both url
and tabId may be absent (undefined). -/
structure AuditReqData where
  url : Option String
  tabId : Option ℕ
deriving DecidableEq, Repr

/-- Payload of a GET_CURRENT_PAGE message (JS truthiness of the two flags). -/
structure PageReqData where
  includeLogs : Bool
  includeContent : Bool
deriving DecidableEq, Repr

/-- A chrome tab record with the fields the coordinator reads. lastAccessed
may be undefined, read through the idiom lastAccessed or 0. -/
structure Tab where
  id : ℕ
  url : String
  title : String
  active : Bool
  lastAccessed : Option ℚ
deriving DecidableEq, Repr

/-- The record returned by the injected page-content extraction script. -/
structure PageContent where
  title : String
  metaDescription : String
  headings : String
  content : String
deriving DecidableEq, Repr

/-- The record returned by getConsoleLogsFromTab (lines 512-533 of the large
background service). -/
structure LogsResult where
  logs : List String
  note : String
  error : Option String
deriving DecidableEq, Repr

/-- The environment: outcome of every external operation the coordinator can
perform. An Except.error value models the corresponding awaited call throwing
or rejecting with that message. -/
structure Env where
  /-- chrome.storage.local.get -/
  storageGet : Except String Unit
  /-- chrome.storage.local.set -/
  storageSet : Except String Unit
  /-- gptService.setApiKey -/
  gptSetKey : Except String Unit
  /-- gptService.sendRequest -/
  gptSend : Except String GPTResp
  /-- chrome.tabs.query -/
  tabsQuery : Except String (List Tab)
  /-- lighthouseService.runAudit, including its own already-running rejection -/
  runAudit : Except String AuditResult
  /-- chrome.scripting.executeScript content extraction; ok none models a
  missing results array entry -/
  extractContent : Except String (Option PageContent)
  /-- the injected detailed page-analysis script (getDetailedPageAnalysis
  resolves with either an analysis or an error, never rejects) -/
  pageAnalysis : Except String Unit
  /-- captured console logs per tab id (this.tabConsoleLogs) -/
  tabLogs : ℕ → Option (List String)
  /-- successive Math.random draws -/
  rand : ℕ → ℚ
  /-- Date.now() -/
  now : ℤ
  /-- new Date().toISOString() -/
  nowIso : String

/-- Structured data carried in the data field of a response envelope. -/
inductive RData
  /-- JS null -/
  | null
  | str (s : String)
  /-- the GPT service payload forwarded verbatim -/
  | gpt (r : GPTResp)
  /-- the object with the console-logging completion message -/
  | setupDone (message : String)
  /-- GET_CURRENT_PAGE success payload: title, url, content, logs -/
  | page (title url : String) (content : Option PageContent)
      (logs : Option LogsResult)
  /-- API_GET_CONSOLE_LOGS success payload -/
  | consoleData (tabId : ℕ) (title url : String) (active : Bool)
      (logs : List String) (note : String) (logsError : Option String)
      (timestamp : String) (totalLogs : ℕ) (analysisOk : Bool)
      (analysisError : Option String)
  /-- API_GET_CONSOLE_LOGS failure payload: logs empty, tabInfo null when
  the flag is set -/
  | consoleFail (withTabInfoNull : Bool)
deriving DecidableEq, Repr

/-- The response envelope passed to sendResponse. The lighthouse cases use a
field named results instead of data, kept separate for fidelity. -/
structure Response where
  success : Bool
  data : Option RData := none
  error : Option String := none
  results : Option AuditResult := none
deriving DecidableEq, Repr

/-- Payload of a chrome.runtime.sendMessage broadcast from the coordinator. -/
inductive BPayload
  | gptOk (r : GPTResp)
  /-- an object of shape with a single error field -/
  | errObj (e : String)
  | audit (r : AuditResult)
deriving DecidableEq, Repr

/-- A broadcast emitted through sendToPopupWindow (always targeted at the
logical recipient name gpt-popup, lines 113-129 / 352-369). -/
structure Broadcast where
  btype : String
  payload : BPayload
  target : String
deriving DecidableEq, Repr

/-- Observable outcome of one handleMessage invocation: the single
sendResponse argument, the post-state of the stored credential, the
broadcasts emitted, and whether gptService.sendRequest was invoked. -/
structure HandleOut where
  resp : Response
  storage : Option String
  broadcasts : List Broadcast
  gptSendCalled : Bool
deriving Repr

/-- The configuration error thrown in the GPT_REQUEST case when no API key is
stored (lines 43-45). -/
def apiKeyMissingError : String :=
  "OpenAI API key not configured. Please set your API key in the extension popup."

/-- Models the TypeError raised at this.debugLogger.log inside storeApiKey:
the BackgroundService constructor never assigns a debugLogger field, so the
property access on undefined throws. -/
def debugLoggerTypeError : String :=
  "TypeError: this.debugLogger is undefined"

/-- Models the TypeError raised by reading a property of message.data when
message.data is undefined. -/
def dataUndefinedTypeError (field : String) : String :=
  "TypeError: cannot read properties of undefined, reading " ++ field

/-- getStoredApiKey (lines 176-179 / 742-745): read the stored key, mapping
undefined and the empty string to null via the or-null idiom. -/
def getStoredApiKey (env : Env) (st : Option String) :
    Except String (Option String) :=
  match env.storageGet with
  | .error e => .error e
  | .ok _ => .ok (jsStrOrNull st)

/-- storeApiKey (lines 181-188 / 747-754): write the key to storage, then for
a non-empty non-whitespace key mirror it into the GPT service and hit the
debugLogger TypeError. Returns the call outcome and the post-state. -/
def storeApiKey (env : Env) (st : Option String) (apiKey : String) :
    Except String Unit × Option String :=
  match env.storageSet with
  | .error e => (.error e, st)
  | .ok _ =>
    let st2 : Option String := some apiKey
    if apiKey ≠ "" ∧ jsTrim apiKey ≠ "" then
      match env.gptSetKey with
      | .error e => (.error e, st2)
      | .ok _ => (.error debugLoggerTypeError, st2)
    else (.ok (), st2)

/-- The body of the GPT_REQUEST inner try (lines 38-56, identical in both
background services): check the stored key, mirror it into the service, send.
The Bool records whether gptService.sendRequest was reached. -/
def gptRequestCase (env : Env) (st : Option String) :
    Except String GPTResp × Bool :=
  match getStoredApiKey env st with
  | .error e => (.error e, false)
  | .ok none => (.error apiKeyMissingError, false)
  | .ok (some _) =>
    match env.gptSetKey with
    | .error e => (.error e, false)
    | .ok _ =>
      match env.gptSend with
      | .error e => (.error e, true)
      | .ok r => (.ok r, true)

/-- The full GPT_REQUEST branch including its catch (lines 38-63): both
outcomes broadcast GPT_RESPONSE to the popup and respond synchronously. -/
def gptBranch (env : Env) (st : Option String) : HandleOut :=
  match gptRequestCase env st with
  | (.ok r, _) =>
      { resp := { success := true, data := some (.gpt r) }
        storage := st
        broadcasts := [⟨"GPT_RESPONSE", .gptOk r, "gpt-popup"⟩]
        gptSendCalled := true }
  | (.error e, called) =>
      { resp := { success := false, error := some e }
        storage := st
        broadcasts := [⟨"GPT_RESPONSE", .errObj e, "gpt-popup"⟩]
        gptSendCalled := called }

/-- The GET_API_KEY branch (lines 65-68, identical in both services). -/
def getApiKeyBranch (env : Env) (st : Option String) : Response :=
  match getStoredApiKey env st with
  | .error e => { success := false, error := some e }
  | .ok k =>
      { success := true
        data := some (match k with | some s => .str s | none => .null) }

/-- The SET_API_KEY branch (lines 70-73): a failure inside storeApiKey is
caught only by the outer catch of handleMessage. -/
def setApiKeyBranch (env : Env) (st : Option String)
    (data : Option SetKeyData) : Response × Option String :=
  match data with
  | none =>
      ({ success := false, error := some (dataUndefinedTypeError "apiKey") }, st)
  | some d =>
    match storeApiKey env st d.apiKey with
    | (.error e, st2) => ({ success := false, error := some e }, st2)
    | (.ok _, st2) => ({ success := true }, st2)

/-- The url argument passed to getMockResults: message.data.url when truthy,
else the template string built from message.data.tabId (undefined prints as
the string undefined). -/
def mockUrlArg (d : AuditReqData) : String :=
  match jsStrOrNull d.url with
  | some s => s
  | none =>
      "tab-" ++ (match d.tabId with | some n => toString n | none => "undefined")

/-! ## Tab resolution (src/src/background/background.js, duplicated in the
SETUP_CONSOLE_LOGGING, API_GET_CONSOLE_LOGS and GET_CURRENT_PAGE cases) -/

/-- The filter excluding extension and browser-internal pages. -/
def isWebTab (t : Tab) : Bool :=
  !(jsStartsWith t.url "chrome-extension://") &&
  !(jsStartsWith t.url "chrome://") &&
  !(jsStartsWith t.url "moz-extension://")

/-- tabs.filter of the web-tab predicate. -/
def webTabs (tabs : List Tab) : List Tab := tabs.filter isWebTab

/-- The access-time key: lastAccessed or 0. -/
def tabLastAccessed (t : Tab) : ℚ := t.lastAccessed.getD 0

/-- The descending comparator passed to sort: the comparator value
b.lastAccessed minus a.lastAccessed is nonpositive exactly when b is at most
a. -/
def tabDescLe (a b : Tab) : Prop := tabLastAccessed b ≤ tabLastAccessed a

instance : DecidableRel tabDescLe :=
  fun a b => inferInstanceAs (Decidable (tabLastAccessed b ≤ tabLastAccessed a))

instance : IsTotal Tab tabDescLe := ⟨fun _ _ => le_total _ _⟩

instance : IsTrans Tab tabDescLe := ⟨fun _ _ _ h1 h2 => le_trans h2 h1⟩

/-- Tab resolution: prefer the first active web tab; otherwise sort the web
tabs by descending last access and take the first, if any. Array sort with a
consistent comparator is stable in modern JS engines, and a stable sort is
uniquely determined by the comparator, so the stable insertion sort stands in
for the engine sort. -/
def pickTab (tabs : List Tab) : Option Tab :=
  let w := webTabs tabs
  match w.find? (fun t => t.active) with
  | some t => some t
  | none => (List.insertionSort tabDescLe w).head?

/-- getConsoleLogsFromTab (lines 512-533): report captured logs for the tab,
or the not-initialized record; never rejects. -/
def getConsoleLogsFromTab (env : Env) (tabId : ℕ) : LogsResult :=
  match env.tabLogs tabId with
  | some logs =>
      { logs := logs
        note := "Retrieved " ++ toString logs.length ++
          " console messages from Chrome Debugger API"
        error := none }
  | none =>
      { logs := []
        note := "No console logs captured yet. Console logging may not be setup for this tab."
        error := some "Console logging not initialized for this tab" }

/-! ## The two message dispatchers -/

/-- Inbound vocabulary of src/background.js (the small service worker).
RUN_LIGHTHOUSE_AUDIT and LIGHTHOUSE_REQUEST share one branch; unknown covers
every other type string. -/
inductive MsgS
  | gptRequest
  | getApiKey
  | setApiKey (data : Option SetKeyData)
  | lighthouseAudit (data : Option AuditReqData)
  | unknown (mtype : String)
deriving DecidableEq, Repr

/-- Inbound vocabulary of src/src/background/background.js. -/
inductive MsgB
  | gptRequest
  | getApiKey
  | setApiKey (data : Option SetKeyData)
  | setupConsoleLogging
  | apiGetConsoleLogs
  | getCurrentPage (data : Option PageReqData)
  | lighthouseAudit (data : Option AuditReqData)
  | unknown (mtype : String)
deriving DecidableEq, Repr

/-- Shorthand for an outcome with no broadcast and no GPT call. -/
def plainOut (st : Option String) (r : Response) : HandleOut :=
  { resp := r, storage := st, broadcasts := [], gptSendCalled := false }

/-- BackgroundService.handleMessage of src/background.js (lines 35-110).
Total: the outer catch guarantees exactly one sendResponse per message. -/
def handleMessageS (env : Env) (st : Option String) : MsgS → HandleOut
  | .gptRequest => gptBranch env st
  | .getApiKey => plainOut st (getApiKeyBranch env st)
  | .setApiKey data =>
      let (r, st2) := setApiKeyBranch env st data
      plainOut st2 r
  | .lighthouseAudit data =>
    match data with
    | none =>
        { resp := { success := false
                    error := some (dataUndefinedTypeError "url") }
          storage := st
          broadcasts :=
            [⟨"LIGHTHOUSE_RESULT", .errObj (dataUndefinedTypeError "url"),
              "gpt-popup"⟩]
          gptSendCalled := false }
    | some d =>
        let results := getMockResults env.rand env.now (mockUrlArg d)
        { resp := { success := true, results := some results }
          storage := st
          broadcasts := [⟨"LIGHTHOUSE_RESULT", .audit results, "gpt-popup"⟩]
          gptSendCalled := false }
  | .unknown _ =>
      plainOut st { success := false, error := some "Unknown message type" }

/-- The SETUP_CONSOLE_LOGGING branch (lines 75-117): the nested
setupConsoleLogging promise resolves on every path, so after a tab is found
the branch always succeeds. -/
def setupConsoleLoggingBranch (env : Env) : Response :=
  match env.tabsQuery with
  | .error e => { success := false, error := some e }
  | .ok tabs =>
    match pickTab tabs with
    | none =>
        { success := false
          error := some "No web page found to setup console logging" }
    | some _ =>
        { success := true
          data := some (.setupDone "Console logging setup completed") }

/-- The API_GET_CONSOLE_LOGS branch (lines 119-180): both helper calls
resolve on every path, so only the tabs query or a missing tab can fail. -/
def apiGetConsoleLogsBranch (env : Env) : Response :=
  match env.tabsQuery with
  | .error e =>
      { success := false, error := some e, data := some (.consoleFail false) }
  | .ok tabs =>
    match pickTab tabs with
    | none =>
        { success := false
          error := some "No web page found"
          data := some (.consoleFail true) }
    | some t =>
      let cl := getConsoleLogsFromTab env t.id
      let aOk := match env.pageAnalysis with | .ok _ => true | .error _ => false
      let aErr := match env.pageAnalysis with
        | .ok _ => none
        | .error e => some e
      { success := true
        data := some (.consoleData t.id t.title t.url t.active cl.logs cl.note
          cl.error env.nowIso cl.logs.length aOk aErr) }

/-- The GET_CURRENT_PAGE branch (lines 182-304): the log fetch and the content
extraction are both individually guarded, so after a tab is found the branch
always succeeds. -/
def getCurrentPageBranch (env : Env) (data : Option PageReqData) : Response :=
  match env.tabsQuery with
  | .error e => { success := false, error := some e }
  | .ok tabs =>
    match pickTab tabs with
    | none => { success := false, error := some "No active tab found" }
    | some t =>
      let logs : Option LogsResult :=
        match data with
        | some d =>
            if d.includeLogs then some (getConsoleLogsFromTab env t.id)
            else none
        | none => none
      let content : Option PageContent :=
        match data with
        | some d =>
            if d.includeContent then
              match env.extractContent with
              | .ok (some pc) => some pc
              | _ => none
            else none
        | none => none
      { success := true, data := some (.page t.title t.url content logs) }

/-- The RUN_LIGHTHOUSE_AUDIT branch of the large service (lines 306-340):
try the real audit, fall back to the mock generator on any audit failure.
openLighthouseResults is invoked without await, so its outcome cannot affect
the response. -/
def lighthouseAuditBranchB (env : Env) (data : Option AuditReqData) :
    Response :=
  match data with
  | none =>
      { success := false, error := some (dataUndefinedTypeError "url") }
  | some d =>
    let results := match env.runAudit with
      | .ok r => r
      | .error _ => getMockResults env.rand env.now (mockUrlArg d)
    { success := true, results := some results }

/-- BackgroundService.handleMessage of src/src/background/background.js
(lines 35-350). -/
def handleMessageB (env : Env) (st : Option String) : MsgB → HandleOut
  | .gptRequest => gptBranch env st
  | .getApiKey => plainOut st (getApiKeyBranch env st)
  | .setApiKey data =>
      let (r, st2) := setApiKeyBranch env st data
      plainOut st2 r
  | .setupConsoleLogging => plainOut st (setupConsoleLoggingBranch env)
  | .apiGetConsoleLogs => plainOut st (apiGetConsoleLogsBranch env)
  | .getCurrentPage data => plainOut st (getCurrentPageBranch env data)
  | .lighthouseAudit data => plainOut st (lighthouseAuditBranchB env data)
  | .unknown _ =>
      plainOut st { success := false, error := some "Unknown message type" }

/-- An environment-supplied failure outcome is well formed when its message,
like every exception message a real JS runtime attaches to these rejections,
is non-empty. -/
def ExceptNE {α : Type} (x : Except String α) : Prop :=
  ∀ e, x = .error e → e ≠ ""

/-- Well-formedness of the environment failure messages that can reach a
response error field. -/
structure WFEnv (env : Env) : Prop where
  storageGet : ExceptNE env.storageGet
  storageSet : ExceptNE env.storageSet
  gptSetKey : ExceptNE env.gptSetKey
  gptSend : ExceptNE env.gptSend
  tabsQuery : ExceptNE env.tabsQuery

/-! ## Front-surface listener (src/src/gpt-popup/GPTChatApp.tsx lines 83-127;
src/popup.js lines 577-598 carries the identical target guard and dispatch) -/

/-- The data field of a broadcast as read by the chat window handler. -/
structure RespData where
  error : Option String
  content : Option String
  message : Option String
deriving DecidableEq, Repr

/-- One rendered chat entry (id is Date.now at receipt time). -/
structure ChatMsg where
  id : ℤ
  msgType : String
  content : String
deriving DecidableEq, Repr

/-- The component state the handler mutates: the loading flag and the
rendered message list. -/
structure ChatState where
  isLoading : Bool
  messages : List ChatMsg
deriving DecidableEq, Repr

/-- An inbound runtime message as seen by a front-surface listener. -/
structure InMsg where
  target : Option String
  mtype : String
  data : RespData
deriving DecidableEq, Repr

/-- The chain data.content or data.message or the fallback text, with JS
string truthiness. -/
def gptContentOr (d : RespData) : String :=
  match jsStrOrNull d.content with
  | some c => c
  | none =>
    match jsStrOrNull d.message with
    | some m => m
    | none => "No response received"

/-- handleGPTResponse (GPTChatApp.tsx lines 103-127): clear the loading flag,
then append an error entry or an assistant entry. -/
def handleGPTResponse (now : ℤ) (d : RespData) (st : ChatState) : ChatState :=
  let st := { st with isLoading := false }
  match jsStrOrNull d.error with
  | some e =>
      { st with messages := st.messages ++ [⟨now, "error", "Error: " ++ e⟩] }
  | none =>
      { st with
        messages := st.messages ++ [⟨now, "assistant", gptContentOr d⟩] }

/-- The switch body of the listener, reached only past the target guard:
GPT_RESPONSE updates the chat state, LIGHTHOUSE_RESULT only logs, any other
type falls through. -/
def dispatchPopupMsg (now : ℤ) (m : InMsg) (st : ChatState) : ChatState :=
  if m.mtype = "GPT_RESPONSE" then handleGPTResponse now m.data st else st

/-- The chat-window message listener (GPTChatApp.tsx lines 84-100): the guard
returns early when message.target is truthy and differs from gpt-popup. The
Bool reports whether the message was dispatched to the switch. -/
def gptPopupListener (now : ℤ) (m : InMsg) (st : ChatState) :
    ChatState × Bool :=
  match jsStrOrNull m.target with
  | some t =>
      if t ≠ "gpt-popup" then (st, false)
      else (dispatchPopupMsg now m st, true)
  | none => (dispatchPopupMsg now m st, true)

/-! ## Conversation history (API client)

Modelled from the spec: the GPTService source (services/gpt-service.js,
imported by both background services) is not part of this repository
snapshot. Spec sections 3 and 4.2: a conversation is an ordered turn list;
on a successful send the new user/assistant turn pair is recorded; the list
length is capped at a maximum turn count, oldest non-system turns are evicted
first, and system turns are always retained. -/

/-- A turn role. -/
inductive Role
  | user
  | system
  | assistant
deriving DecidableEq, Repr

/-- One conversation turn. -/
structure Turn where
  role : Role
  content : String
deriving DecidableEq, Repr

/-- Whether a turn is a system turn. -/
def isSystemTurn (t : Turn) : Bool := t.role = Role.system

/-- Modelled from the spec: evict the oldest (earliest) non-system turn,
keeping every system turn and the relative order of the rest. -/
def evictOldestNonSystem : List Turn → List Turn
  | [] => []
  | t :: ts => if isSystemTurn t then t :: evictOldestNonSystem ts else ts

/-- Modelled from the spec: truncate a conversation to the cap by repeatedly
evicting the oldest non-system turn; system turns are always retained, so a
list of system turns alone is never shrunk. -/
def truncateConversation (cap : ℕ) (h : List Turn) : List Turn :=
  if _hx : h.length ≤ cap ∨ h.all isSystemTurn then h
  else truncateConversation cap (evictOldestNonSystem h)
termination_by h.length
decreasing_by
  have hx : ¬ h.all isSystemTurn := by tauto
  have key : ∀ l : List Turn, ¬ l.all isSystemTurn →
      (evictOldestNonSystem l).length < l.length := by
    intro l
    induction l with
    | nil => intro hl; simp at hl
    | cons t ts ih =>
      intro hl
      by_cases hs : isSystemTurn t
      · simp only [evictOldestNonSystem, hs, if_pos, List.length_cons]
        refine Nat.succ_lt_succ (ih ?_)
        intro hall
        exact hl (by simp [List.all_cons, hs, hall])
      · simp [evictOldestNonSystem, hs]
  exact key h hx

/-- Modelled from the spec: a successful send appends the new user turn and
the assistant reply, then truncates to the cap. -/
def recordTurnPair (cap : ℕ) (h : List Turn) (u a : String) : List Turn :=
  truncateConversation cap (h ++ [⟨Role.user, u⟩, ⟨Role.assistant, a⟩])

/-- The stored history after a sequence of successfully sent chat turns for
one conversation id, starting from the implicitly created empty history. -/
def runConversation (cap : ℕ) (pairs : List (String × String)) : List Turn :=
  pairs.foldl (fun h p => recordTurnPair cap h p.1 p.2) []

/-- The full chronological turn list a sequence of sends produces. -/
def chronTurns (pairs : List (String × String)) : List Turn :=
  pairs.flatMap (fun p => [⟨Role.user, p.1⟩, ⟨Role.assistant, p.2⟩])

/-- A turn list with no system turns (the stored history only ever receives
user and assistant turns). -/
def NoSystem (h : List Turn) : Prop := ∀ t ∈ h, isSystemTurn t = false

/-! ## Statement-support definitions

Closed-form penalty expressions as the specification phrases them, to be
compared against the sequential computation of calculatePerformanceScore,
plus concrete inputs used by witnesses and counterexamples. -/

/-- Penalty the spec assigns to first-contentful-paint over 1800ms. -/
def fcpPenalty (m : Metrics) : ℚ :=
  if m.firstContentfulPaint > 1800 then
    min 30 ((m.firstContentfulPaint - 1800) / 100) else 0

/-- Penalty the spec assigns to largest-contentful-paint over 2500ms. -/
def lcpPenalty (m : Metrics) : ℚ :=
  if m.largestContentfulPaint > 2500 then
    min 25 ((m.largestContentfulPaint - 2500) / 100) else 0

/-- Penalty the spec assigns to total load time over 3000ms. -/
def loadPenalty (m : Metrics) : ℚ :=
  if m.loadTime > 3000 then min 25 ((m.loadTime - 3000) / 200) else 0

/-- Penalty the spec assigns to cumulative layout shift over 0.1. -/
def clsPenalty (m : Metrics) : ℚ :=
  if m.cumulativeLayoutShift > 0.1 then
    min 20 (m.cumulativeLayoutShift * 100) else 0

/-- An all-zero metric record. -/
def zeroMetrics : Metrics := ⟨0, 0, 0, 0, 0, 0⟩

/-- A concrete benign environment: every external operation succeeds except
the real audit, which fails, and every Math.random draw is one half. -/
def demoEnv : Env :=
  { storageGet := .ok ()
    storageSet := .ok ()
    gptSetKey := .ok ()
    gptSend := .ok ⟨"hello"⟩
    tabsQuery := .ok []
    runAudit := .error "boom"
    extractContent := .ok none
    pageAnalysis := .ok ()
    tabLogs := fun _ => none
    rand := fun _ => 1/2
    now := 0
    nowIso := "now" }

/-- A tab set containing only a browser-internal page. -/
def chromeOnlyTabs : List Tab := [⟨1, "chrome://extensions", "Ext", true, none⟩]

/-- demoEnv whose tab query yields only a browser-internal page. -/
def chromeOnlyEnv : Env := { demoEnv with tabsQuery := .ok chromeOnlyTabs }

/-- An active ordinary web tab with a low access time. -/
def activeWebTab : Tab := ⟨1, "https://a.example", "A", true, some 5⟩

/-- An inactive ordinary web tab with a higher access time. -/
def recentWebTab : Tab := ⟨2, "https://b.example", "B", false, some 9⟩

/-- A response envelope is error-well-formed when a failure carries a
non-empty error string. -/
def RespErrOk (r : Response) : Prop :=
  r.success = false → ∃ e, r.error = some e ∧ e ≠ ""

/-- Well-formedness of a generated mock audit result: every randomly
generated field lies in the bounded range its generator draws from, and the
overall score lies within 0 and 100. -/
def MockResultWF (r : AuditResult) : Prop :=
  (1000 ≤ r.metrics.loadTime ∧ r.metrics.loadTime < 3000) ∧
  (800 ≤ r.metrics.domContentLoaded ∧ r.metrics.domContentLoaded < 2300) ∧
  (500 ≤ r.metrics.firstPaint ∧ r.metrics.firstPaint < 1500) ∧
  (600 ≤ r.metrics.firstContentfulPaint ∧
    r.metrics.firstContentfulPaint < 1800) ∧
  (1000 ≤ r.metrics.largestContentfulPaint ∧
    r.metrics.largestContentfulPaint < 3000) ∧
  (0 ≤ r.metrics.cumulativeLayoutShift ∧
    r.metrics.cumulativeLayoutShift < 0.3) ∧
  (60 ≤ r.scores.performance ∧ r.scores.performance < 100) ∧
  (80 ≤ r.scores.accessibility ∧ r.scores.accessibility < 100) ∧
  (75 ≤ r.scores.bestPractices ∧ r.scores.bestPractices < 95) ∧
  (85 ≤ r.scores.seo ∧ r.scores.seo < 105) ∧
  (0 ≤ r.scores.overall ∧ r.scores.overall ≤ 100)

/-! # Theorems -/

/-- Monotone lower bound for JS rounding. -/
theorem le_jsRound (q : ℚ) (n : ℤ) (h : (n : ℚ) ≤ q) : n ≤ jsRound q := by
  unfold jsRound
  rw [Int.le_floor]
  linarith

/-- Monotone upper bound for JS rounding. -/
theorem jsRound_le (q : ℚ) (n : ℤ) (h : q ≤ (n : ℚ)) : jsRound q ≤ n := by
  unfold jsRound
  have hlt : ⌊q + 1/2⌋ < n + 1 := by
    rw [Int.floor_lt]
    push_cast
    linarith
  omega

theorem fcpPenalty_nonneg (m : Metrics) : 0 ≤ fcpPenalty m := by
  unfold fcpPenalty
  split_ifs with h
  · exact le_min (by norm_num) (div_nonneg (by linarith) (by norm_num))
  · exact le_refl 0

theorem lcpPenalty_nonneg (m : Metrics) : 0 ≤ lcpPenalty m := by
  unfold lcpPenalty
  split_ifs with h
  · exact le_min (by norm_num) (div_nonneg (by linarith) (by norm_num))
  · exact le_refl 0

theorem loadPenalty_nonneg (m : Metrics) : 0 ≤ loadPenalty m := by
  unfold loadPenalty
  split_ifs with h
  · exact le_min (by norm_num) (div_nonneg (by linarith) (by norm_num))
  · exact le_refl 0

theorem clsPenalty_nonneg (m : Metrics) : 0 ≤ clsPenalty m := by
  unfold clsPenalty
  split_ifs with h
  · refine le_min (by norm_num) ?_
    have : (0.1 : ℚ) < m.cumulativeLayoutShift := h
    nlinarith
  · exact le_refl 0

/-- The sequential score mutation of calculatePerformanceScore equals the
closed form: 100 minus the four independent capped penalties, rounded and
floored at zero. -/
theorem calculatePerformanceScore_eq (m : Metrics) :
    calculatePerformanceScore m =
      max 0 (jsRound
        (100 - fcpPenalty m - lcpPenalty m - loadPenalty m - clsPenalty m)) := by
  simp only [calculatePerformanceScore, fcpPenalty, lcpPenalty, loadPenalty,
    clsPenalty]
  split_ifs <;> (refine congrArg (fun z => max 0 (jsRound z)) ?_; ring)

theorem calculatePerformanceScore_nonneg (m : Metrics) :
    0 ≤ calculatePerformanceScore m := by
  rw [calculatePerformanceScore_eq]
  exact le_max_left 0 _

theorem calculatePerformanceScore_le_100 (m : Metrics) :
    calculatePerformanceScore m ≤ 100 := by
  rw [calculatePerformanceScore_eq]
  have h1 := fcpPenalty_nonneg m
  have h2 := lcpPenalty_nonneg m
  have h3 := loadPenalty_nonneg m
  have h4 := clsPenalty_nonneg m
  refine max_le (by norm_num) (jsRound_le _ 100 ?_)
  push_cast
  linarith

/-- Claim C6: for every metrics record with non-negative metric values,
calculatePerformanceScore returns 100 minus one penalty per metric exceeding
its threshold (capped at 30, 25, 25, 20 respectively), rounded and floored at
0, and the result always lies in the interval from 0 to 100. -/
theorem claim_C6_performance_scoring (m : Metrics)
    (_h1 : 0 ≤ m.firstContentfulPaint) (_h2 : 0 ≤ m.largestContentfulPaint)
    (_h3 : 0 ≤ m.loadTime) (_h4 : 0 ≤ m.cumulativeLayoutShift) :
    calculatePerformanceScore m =
      max 0 (jsRound
        (100 - fcpPenalty m - lcpPenalty m - loadPenalty m - clsPenalty m)) ∧
    0 ≤ calculatePerformanceScore m ∧ calculatePerformanceScore m ≤ 100 :=
  ⟨calculatePerformanceScore_eq m, calculatePerformanceScore_nonneg m,
    calculatePerformanceScore_le_100 m⟩

/-- Witness for claim C6 at the all-zero metric record. -/
theorem claim_C6_performance_scoring_witness :
    calculatePerformanceScore zeroMetrics =
      max 0 (jsRound (100 - fcpPenalty zeroMetrics - lcpPenalty zeroMetrics -
        loadPenalty zeroMetrics - clsPenalty zeroMetrics)) ∧
    0 ≤ calculatePerformanceScore zeroMetrics ∧
    calculatePerformanceScore zeroMetrics ≤ 100 :=
  claim_C6_performance_scoring zeroMetrics (le_refl 0) (le_refl 0) (le_refl 0)
    (le_refl 0)

/-- Claim C10: calculateScores computes overall from the performance score
and the fixed constants 80, 75, 85 rather than the random category values it
returns, hence overall always lies in the interval from 60 to 85 and in
general differs from the rounded average of the four returned scores. -/
theorem claim_C10_overall_constants :
    (∀ rand m, (calculateScores rand m).overall =
        jsRound (((calculatePerformanceScore m : ℚ) + 80 + 75 + 85) / 4)) ∧
    (∀ rand m, 60 ≤ (calculateScores rand m).overall ∧
        (calculateScores rand m).overall ≤ 85) ∧
    ((calculateScores (fun _ => 19/20) zeroMetrics).overall ≠
      jsRound ((((calculateScores (fun _ => 19/20) zeroMetrics).performance +
        (calculateScores (fun _ => 19/20) zeroMetrics).accessibility +
        (calculateScores (fun _ => 19/20) zeroMetrics).bestPractices +
        (calculateScores (fun _ => 19/20) zeroMetrics).seo : ℤ) : ℚ) / 4)) := by
  have hperf : calculatePerformanceScore zeroMetrics = 100 := by
    norm_num [calculatePerformanceScore, zeroMetrics, jsRound]
  have hscores : calculateScores (fun _ => 19/20) zeroMetrics =
      ⟨100, 99, 94, 104, 85⟩ := by
    norm_num [calculateScores, jsRandFloor, hperf, jsRound, Scores.mk.injEq]
  refine ⟨fun rand m => rfl, fun rand m => ?_, ?_⟩
  · have h0 := calculatePerformanceScore_nonneg m
    have h100 := calculatePerformanceScore_le_100 m
    constructor
    · show (60 : ℤ) ≤
        jsRound (((calculatePerformanceScore m : ℚ) + 80 + 75 + 85) / 4)
      refine le_jsRound _ 60 ?_
      have : (0 : ℚ) ≤ (calculatePerformanceScore m : ℚ) := by exact_mod_cast h0
      push_cast
      linarith
    · show jsRound (((calculatePerformanceScore m : ℚ) + 80 + 75 + 85) / 4) ≤ 85
      refine jsRound_le _ 85 ?_
      have : ((calculatePerformanceScore m : ℚ)) ≤ 100 := by exact_mod_cast h100
      push_cast
      linarith
  · rw [hscores]
    norm_num [jsRound]

/-- Bounds for one Math.floor(Math.random() * scale) + base draw. -/
theorem jsRandFloor_bounds (d : ℚ) (scale base : ℤ) (h0 : 0 ≤ d) (h1 : d < 1)
    (hs : 0 < scale) :
    base ≤ jsRandFloor d scale base ∧ jsRandFloor d scale base < base + scale := by
  unfold jsRandFloor
  have hs0 : (0 : ℚ) ≤ (scale : ℚ) := by exact_mod_cast hs.le
  constructor
  · have : (0 : ℤ) ≤ ⌊d * (scale : ℚ)⌋ :=
      Int.floor_nonneg.mpr (mul_nonneg h0 hs0)
    omega
  · have : ⌊d * (scale : ℚ)⌋ < scale := by
      rw [Int.floor_lt]
      calc d * (scale : ℚ) < 1 * (scale : ℚ) := by
            refine mul_lt_mul_of_pos_right h1 ?_
            exact_mod_cast hs
        _ = (scale : ℚ) := one_mul _
    omega

/-- Ranges of the mock generator fields under a valid random sequence. -/
theorem getMockResults_wf (rand : ℕ → ℚ) (now : ℤ) (url : String)
    (hr : ValidRand rand) : MockResultWF (getMockResults rand now url) := by
  have hb : ∀ i scale base, 0 < scale →
      base ≤ jsRandFloor (rand i) scale base ∧
      jsRandFloor (rand i) scale base < base + scale := by
    intro i scale base hs
    exact jsRandFloor_bounds (rand i) scale base (hr i).1 (hr i).2 hs
  dsimp only [MockResultWF, getMockResults]
  refine ⟨?_, ?_, ?_, ?_, ?_, ?_, ?_, ?_, ?_, ?_, ?_⟩
  · have h := hb 0 2000 1000 (by norm_num)
    norm_num at h
    exact ⟨by exact_mod_cast h.1, by exact_mod_cast h.2⟩
  · have h := hb 1 1500 800 (by norm_num)
    norm_num at h
    exact ⟨by exact_mod_cast h.1, by exact_mod_cast h.2⟩
  · have h := hb 2 1000 500 (by norm_num)
    norm_num at h
    exact ⟨by exact_mod_cast h.1, by exact_mod_cast h.2⟩
  · have h := hb 3 1200 600 (by norm_num)
    norm_num at h
    exact ⟨by exact_mod_cast h.1, by exact_mod_cast h.2⟩
  · have h := hb 4 2000 1000 (by norm_num)
    norm_num at h
    exact ⟨by exact_mod_cast h.1, by exact_mod_cast h.2⟩
  · constructor
    · have := (hr 5).1
      nlinarith
    · have := (hr 5).2
      nlinarith
  · have h := hb 6 40 60 (by norm_num)
    exact ⟨h.1, by omega⟩
  · have h := hb 7 20 80 (by norm_num)
    exact ⟨h.1, by omega⟩
  · have h := hb 8 20 75 (by norm_num)
    exact ⟨h.1, by omega⟩
  · have h := hb 9 20 85 (by norm_num)
    exact ⟨h.1, by omega⟩
  · have h := hb 10 30 70 (by norm_num)
    exact ⟨by omega, by omega⟩

/-- Claim C7: when the live measurement path fails for any reason, the
RUN_LIGHTHOUSE_AUDIT handler of the large background service returns a
success response whose result comes from the mock generator, and for every
url the mock generator produces an AuditResult with url, title and timestamp
populated and every generated field, including the overall score, inside its
bounded range (overall within 0 and 100). -/
theorem claim_C7_audit_fallback :
    (∀ env st d e, env.runAudit = Except.error e →
      (handleMessageB env st (.lighthouseAudit (some d))).resp =
        { success := true
          results := some (getMockResults env.rand env.now (mockUrlArg d)) }) ∧
    (∀ rand now url, ValidRand rand →
      (getMockResults rand now url).url = url ∧
      (getMockResults rand now url).title = "Mock Lighthouse Report" ∧
      (getMockResults rand now url).timestamp = now ∧
      MockResultWF (getMockResults rand now url)) := by
  constructor
  · intro env st d e h
    simp [handleMessageB, plainOut, lighthouseAuditBranchB, h]
  · intro rand now url hr
    exact ⟨rfl, rfl, rfl, getMockResults_wf rand now url hr⟩

/-- Witness for claim C7: a failing audit environment and the constant
one-half random sequence. -/
theorem claim_C7_audit_fallback_witness :
    (handleMessageB demoEnv none
        (.lighthouseAudit (some ⟨some "https://x.example", none⟩))).resp =
      { success := true
        results := some (getMockResults demoEnv.rand demoEnv.now
          (mockUrlArg ⟨some "https://x.example", none⟩)) } ∧
    ((getMockResults (fun _ => 1/2) 0 "https://x.example").url =
        "https://x.example" ∧
      (getMockResults (fun _ => 1/2) 0 "https://x.example").title =
        "Mock Lighthouse Report" ∧
      (getMockResults (fun _ => 1/2) 0 "https://x.example").timestamp = 0 ∧
      MockResultWF (getMockResults (fun _ => 1/2) 0 "https://x.example")) :=
  ⟨claim_C7_audit_fallback.1 demoEnv none ⟨some "https://x.example", none⟩
      "boom" rfl,
    claim_C7_audit_fallback.2 (fun _ => 1/2) 0 "https://x.example"
      (fun _ => by norm_num)⟩

/-- Every reachable LighthouseService state has its in-flight count equal to
the guard flag reading: the guard is exact. -/
theorem lh_invariant (s : LHState) (h : LHReachable s) :
    s.inFlight = (if s.isRunning then 1 else 0) := by
  induction h with
  | refl => rfl
  | tail _ step ih =>
    cases step with
    | start _ _ hst =>
      unfold startAudit at hst
      split at hst
      · exact absurd hst (by simp)
      · rename_i hnr
        rw [Except.ok.injEq] at hst
        subst hst
        simp [ih, hnr]
    | startRejected _ _ _ => exact ih
    | finish ok _ _ =>
      simp only [finishAudit, ih]
      split <;> rfl

/-- Claim C5: a second runAudit started while one is in flight fails
immediately with the already-running error and starts no second measurement:
no reachable state has two audits in flight, and both exits of the audit body
reset the flag. -/
theorem claim_C5_concurrency_guard :
    (∀ s : LHState, LHReachable s → s.inFlight ≤ 1) ∧
    (∀ s : LHState, s.isRunning = true →
      startAudit s = .error "Lighthouse audit is already running") ∧
    (∀ s : LHState, (finishAudit s).isRunning = false) := by
  refine ⟨?_, ?_, fun s => rfl⟩
  · intro s h
    have := lh_invariant s h
    split at this <;> omega
  · intro s h
    unfold startAudit
    simp [h]

/-- Witness for claim C5: the initial state is reachable and satisfies the
bound; the running one-in-flight state rejects a second start and its finish
clears the flag. -/
theorem claim_C5_concurrency_guard_witness :
    lhInit.inFlight ≤ 1 ∧
    startAudit ⟨true, 1⟩ = .error "Lighthouse audit is already running" ∧
    (finishAudit ⟨true, 1⟩).isRunning = false :=
  ⟨claim_C5_concurrency_guard.1 lhInit Relation.ReflTransGen.refl,
    claim_C5_concurrency_guard.2.1 ⟨true, 1⟩ rfl,
    claim_C5_concurrency_guard.2.2 ⟨true, 1⟩⟩

/-- Evicting the oldest non-system turn shortens a list that is not all
system turns. -/
theorem evictOldestNonSystem_length_lt (h : List Turn)
    (hx : ¬ h.all isSystemTurn) :
    (evictOldestNonSystem h).length < h.length := by
  induction h with
  | nil => simp at hx
  | cons t ts ih =>
    by_cases hs : isSystemTurn t
    · simp only [evictOldestNonSystem, hs, if_pos, List.length_cons]
      refine Nat.succ_lt_succ (ih ?_)
      intro hall
      exact hx (by simp [List.all_cons, hs, hall])
    · simp [evictOldestNonSystem, hs]

/-- Eviction keeps exactly the system turns. -/
theorem evictOldestNonSystem_filter_system (h : List Turn) :
    (evictOldestNonSystem h).filter isSystemTurn = h.filter isSystemTurn := by
  induction h with
  | nil => rfl
  | cons t ts ih =>
    by_cases hs : isSystemTurn t
    · simp [evictOldestNonSystem, hs, List.filter_cons, ih]
    · simp [evictOldestNonSystem, hs, List.filter_cons]

/-- Truncation keeps exactly the system turns: system turns are always
retained and only non-system turns are evicted. -/
theorem truncateConversation_filter_system (cap : ℕ) (h : List Turn) :
    (truncateConversation cap h).filter isSystemTurn =
      h.filter isSystemTurn := by
  induction h using truncateConversation.induct cap with
  | case1 h hstop => rw [truncateConversation, dif_pos hstop]
  | case2 h hstop ih =>
    rw [truncateConversation, dif_neg hstop]
    rw [ih, evictOldestNonSystem_filter_system]

/-- Eviction on a history without system turns drops the head. -/
theorem noSystem_evict (h : List Turn) (hn : NoSystem h) :
    NoSystem (evictOldestNonSystem h) := by
  cases h with
  | nil => exact hn
  | cons t ts =>
    have ht : isSystemTurn t = false := hn t (List.mem_cons_self t ts)
    have he : evictOldestNonSystem (t :: ts) = ts := by
      simp [evictOldestNonSystem, ht]
    rw [he]
    intro u hu
    exact hn u (List.mem_cons_of_mem t hu)

/-- Eviction yields a suffix when the history has no system turns. -/
theorem evict_suffix (h : List Turn) (hn : NoSystem h) :
    evictOldestNonSystem h <:+ h := by
  cases h with
  | nil => exact List.suffix_refl []
  | cons t ts =>
    have ht : isSystemTurn t = false := hn t (List.mem_cons_self t ts)
    have he : evictOldestNonSystem (t :: ts) = ts := by
      simp [evictOldestNonSystem, ht]
    rw [he]
    exact List.suffix_cons t ts

/-- Truncation of a system-free history yields a suffix: the retained turns
are the most recent ones, in chronological order. -/
theorem truncate_suffix (cap : ℕ) (h : List Turn) :
    NoSystem h → truncateConversation cap h <:+ h := by
  induction h using truncateConversation.induct cap with
  | case1 h hstop =>
    intro _
    rw [truncateConversation, dif_pos hstop]
  | case2 h hstop ih =>
    intro hn
    rw [truncateConversation, dif_neg hstop]
    exact List.IsSuffix.trans (ih (noSystem_evict h hn)) (evict_suffix h hn)

/-- Truncation of a system-free history meets the cap. -/
theorem truncate_length_le (cap : ℕ) (h : List Turn) :
    NoSystem h → (truncateConversation cap h).length ≤ cap := by
  induction h using truncateConversation.induct cap with
  | case1 h hstop =>
    intro hn
    rw [truncateConversation, dif_pos hstop]
    rcases hstop with hlen | hall
    · exact hlen
    · cases h with
      | nil => simp
      | cons t ts =>
        have ht : isSystemTurn t = false := hn t (List.mem_cons_self t ts)
        have hts : isSystemTurn t = true :=
          List.all_eq_true.mp hall t (List.mem_cons_self t ts)
        rw [ht] at hts
        cases hts
  | case2 h hstop ih =>
    intro hn
    rw [truncateConversation, dif_neg hstop]
    exact ih (noSystem_evict h hn)

/-- Invariant of the stored history over any sequence of successful sends:
it holds only user and assistant turns, never exceeds the cap, and is a
suffix of the full chronological turn list. -/
theorem runConversation_inv (cap : ℕ) (pairs : List (String × String)) :
    NoSystem (runConversation cap pairs) ∧
    (runConversation cap pairs).length ≤ cap ∧
    runConversation cap pairs <:+ chronTurns pairs := by
  induction pairs using List.reverseRecOn with
  | nil =>
    refine ⟨fun t ht => absurd ht (List.not_mem_nil t), ?_, ?_⟩
    · simp [runConversation]
    · simp [runConversation, chronTurns]
  | append_singleton ps p ih =>
    obtain ⟨ihns, ihlen, ihsuf⟩ := ih
    have hrun : runConversation cap (ps ++ [p]) =
        recordTurnPair cap (runConversation cap ps) p.1 p.2 := by
      simp [runConversation, List.foldl_append]
    have hchron : chronTurns (ps ++ [p]) =
        chronTurns ps ++ [⟨Role.user, p.1⟩, ⟨Role.assistant, p.2⟩] := by
      simp [chronTurns]
    have hns2 : NoSystem (runConversation cap ps ++
        [⟨Role.user, p.1⟩, ⟨Role.assistant, p.2⟩]) := by
      intro t ht
      rcases List.mem_append.mp ht with hm | hm
      · exact ihns t hm
      · have hm2 : t = ⟨Role.user, p.1⟩ ∨ t = ⟨Role.assistant, p.2⟩ := by
          simpa using hm
        rcases hm2 with h2 | h2 <;> (rw [h2]; rfl)
    rw [hrun, hchron]
    unfold recordTurnPair
    refine ⟨?_, truncate_length_le cap _ hns2, ?_⟩
    · intro t ht
      exact hns2 t (List.IsSuffix.subset (truncate_suffix cap _ hns2) ht)
    · refine List.IsSuffix.trans (truncate_suffix cap _ hns2) ?_
      obtain ⟨sdiff, hs⟩ := ihsuf
      exact ⟨sdiff, by rw [← hs, List.append_assoc]⟩

/-- Claim C4: for every conversation and every sequence of successfully sent
chat turns, the stored history never exceeds the maximum turn cap; the
retained turns are the most recent ones in chronological order (oldest
evicted first), and truncation always retains exactly the system turns. -/
theorem claim_C4_conversation_truncation (cap : ℕ)
    (pairs : List (String × String)) :
    (runConversation cap pairs).length ≤ cap ∧
    runConversation cap pairs <:+ chronTurns pairs ∧
    (∀ h, (truncateConversation cap h).filter isSystemTurn =
      h.filter isSystemTurn) :=
  ⟨(runConversation_inv cap pairs).2.1, (runConversation_inv cap pairs).2.2,
    fun h => truncateConversation_filter_system cap h⟩

/-- Any error produced by the GPT_REQUEST body is the configuration error or
one of the three environment failures. -/
theorem gptRequestCase_error_src (env : Env) (st : Option String)
    (e : String) (called : Bool)
    (h : gptRequestCase env st = (.error e, called)) :
    e = apiKeyMissingError ∨ env.storageGet = .error e ∨
    env.gptSetKey = .error e ∨ env.gptSend = .error e := by
  unfold gptRequestCase getStoredApiKey at h
  cases hsg : env.storageGet with
  | error e2 =>
    simp only [hsg, Prod.mk.injEq, Except.error.injEq] at h
    exact .inr (.inl (by rw [h.1]))
  | ok _ =>
    simp only [hsg] at h
    cases hk : jsStrOrNull st with
    | none =>
      simp only [hk, Prod.mk.injEq, Except.error.injEq] at h
      exact .inl h.1.symm
    | some k =>
      simp only [hk] at h
      cases hsk : env.gptSetKey with
      | error e3 =>
        simp only [hsk, Prod.mk.injEq, Except.error.injEq] at h
        exact .inr (.inr (.inl (by rw [h.1])))
      | ok _ =>
        simp only [hsk] at h
        cases hsd : env.gptSend with
        | error e4 =>
          simp only [hsd, Prod.mk.injEq, Except.error.injEq] at h
          exact .inr (.inr (.inr (by rw [h.1])))
        | ok r =>
          simp only [hsd] at h
          simp at h

/-- Any error produced by storeApiKey is one of the two environment failures
or the debugLogger TypeError. -/
theorem storeApiKey_error_src (env : Env) (st st2 : Option String)
    (k e : String) (h : storeApiKey env st k = (.error e, st2)) :
    env.storageSet = .error e ∨ env.gptSetKey = .error e ∨
    e = debugLoggerTypeError := by
  unfold storeApiKey at h
  cases hss : env.storageSet with
  | error e2 =>
    simp only [hss, Prod.mk.injEq, Except.error.injEq] at h
    exact .inl (by rw [h.1])
  | ok _ =>
    simp only [hss] at h
    split at h
    · cases hsk : env.gptSetKey with
      | error e3 =>
        simp only [hsk, Prod.mk.injEq, Except.error.injEq] at h
        exact .inr (.inl (by rw [h.1]))
      | ok _ =>
        simp only [hsk, Prod.mk.injEq, Except.error.injEq] at h
        exact .inr (.inr h.1.symm)
    · simp at h

/-- The GPT_REQUEST branch never fails with an empty error message under a
well-formed environment. -/
theorem respErrOk_gptBranch (env : Env) (st : Option String)
    (wf : WFEnv env) : RespErrOk (gptBranch env st).resp := by
  intro hfail
  rcases hc : gptRequestCase env st with ⟨res, called⟩
  cases res with
  | ok r => simp [gptBranch, hc] at hfail
  | error e =>
    refine ⟨e, by simp [gptBranch, hc], ?_⟩
    rcases gptRequestCase_error_src env st e called hc with h | h | h | h
    · rw [h]; intro hx; simp [apiKeyMissingError] at hx
    · exact wf.storageGet e h
    · exact wf.gptSetKey e h
    · exact wf.gptSend e h

/-- The GET_API_KEY branch never fails with an empty error message under a
well-formed environment. -/
theorem respErrOk_getApiKeyBranch (env : Env) (st : Option String)
    (wf : WFEnv env) : RespErrOk (getApiKeyBranch env st) := by
  intro hfail
  cases hsg : env.storageGet with
  | error e =>
    refine ⟨e, ?_, wf.storageGet e hsg⟩
    simp [getApiKeyBranch, getStoredApiKey, hsg]
  | ok u =>
    exfalso
    simp [getApiKeyBranch, getStoredApiKey, hsg] at hfail

/-- The SET_API_KEY branch never fails with an empty error message under a
well-formed environment. -/
theorem respErrOk_setApiKeyBranch (env : Env) (st : Option String)
    (data : Option SetKeyData) (wf : WFEnv env) :
    RespErrOk (setApiKeyBranch env st data).1 := by
  intro hfail
  cases data with
  | none =>
    refine ⟨dataUndefinedTypeError "apiKey", by simp [setApiKeyBranch], ?_⟩
    intro hx
    simp [dataUndefinedTypeError] at hx
  | some d =>
    rcases hsk : storeApiKey env st d.apiKey with ⟨res, st2⟩
    cases res with
    | ok _ =>
      exfalso
      simp [setApiKeyBranch, hsk] at hfail
    | error e =>
      refine ⟨e, by simp [setApiKeyBranch, hsk], ?_⟩
      rcases storeApiKey_error_src env st st2 d.apiKey e hsk with h | h | h
      · exact wf.storageSet e h
      · exact wf.gptSetKey e h
      · rw [h]; intro hx; simp [debugLoggerTypeError] at hx

/-- The SETUP_CONSOLE_LOGGING branch never fails with an empty error message
under a well-formed environment. -/
theorem respErrOk_setupConsoleLoggingBranch (env : Env) (wf : WFEnv env) :
    RespErrOk (setupConsoleLoggingBranch env) := by
  intro hfail
  cases htq : env.tabsQuery with
  | error e =>
    exact ⟨e, by simp [setupConsoleLoggingBranch, htq], wf.tabsQuery e htq⟩
  | ok tabs =>
    cases hp : pickTab tabs with
    | none =>
      refine ⟨"No web page found to setup console logging",
        by simp [setupConsoleLoggingBranch, htq, hp], by decide⟩
    | some t =>
      exfalso
      simp [setupConsoleLoggingBranch, htq, hp] at hfail

/-- The API_GET_CONSOLE_LOGS branch never fails with an empty error message
under a well-formed environment. -/
theorem respErrOk_apiGetConsoleLogsBranch (env : Env) (wf : WFEnv env) :
    RespErrOk (apiGetConsoleLogsBranch env) := by
  intro hfail
  cases htq : env.tabsQuery with
  | error e =>
    exact ⟨e, by simp [apiGetConsoleLogsBranch, htq], wf.tabsQuery e htq⟩
  | ok tabs =>
    cases hp : pickTab tabs with
    | none =>
      refine ⟨"No web page found",
        by simp [apiGetConsoleLogsBranch, htq, hp], by decide⟩
    | some t =>
      exfalso
      simp [apiGetConsoleLogsBranch, htq, hp] at hfail

/-- The GET_CURRENT_PAGE branch never fails with an empty error message under
a well-formed environment. -/
theorem respErrOk_getCurrentPageBranch (env : Env)
    (data : Option PageReqData) (wf : WFEnv env) :
    RespErrOk (getCurrentPageBranch env data) := by
  intro hfail
  cases htq : env.tabsQuery with
  | error e =>
    exact ⟨e, by simp [getCurrentPageBranch, htq], wf.tabsQuery e htq⟩
  | ok tabs =>
    cases hp : pickTab tabs with
    | none =>
      refine ⟨"No active tab found",
        by simp [getCurrentPageBranch, htq, hp], by decide⟩
    | some t =>
      exfalso
      simp [getCurrentPageBranch, htq, hp] at hfail

/-- The audit branch of the large service never fails with an empty error
message. -/
theorem respErrOk_lighthouseAuditBranchB (env : Env)
    (data : Option AuditReqData) :
    RespErrOk (lighthouseAuditBranchB env data) := by
  intro hfail
  cases data with
  | none =>
    refine ⟨dataUndefinedTypeError "url",
      by simp [lighthouseAuditBranchB], ?_⟩
    intro hx
    simp [dataUndefinedTypeError] at hx
  | some d =>
    exfalso
    simp [lighthouseAuditBranchB] at hfail

/-- Claim C1: for every inbound message, of any type in the vocabulary
including unknown types, both background handleMessage dispatchers invoke
sendResponse exactly once with an object whose success field is a boolean
and, whenever success is false, whose error field is a non-empty string; no
exception escapes (both dispatchers are total functions of the message and
the environment, whose own failure messages are assumed non-empty as real JS
runtimes guarantee). -/
theorem claim_C1_handler_total (env : Env) (st : Option String)
    (wf : WFEnv env) :
    (∀ msg : MsgS, ((handleMessageS env st msg).resp.success = true ∨
        (handleMessageS env st msg).resp.success = false) ∧
      RespErrOk (handleMessageS env st msg).resp) ∧
    (∀ msg : MsgB, ((handleMessageB env st msg).resp.success = true ∨
        (handleMessageB env st msg).resp.success = false) ∧
      RespErrOk (handleMessageB env st msg).resp) := by
  constructor
  · intro msg
    refine ⟨Bool.eq_false_or_eq_true _, ?_⟩
    cases msg with
    | gptRequest => exact respErrOk_gptBranch env st wf
    | getApiKey => exact respErrOk_getApiKeyBranch env st wf
    | setApiKey data => exact respErrOk_setApiKeyBranch env st data wf
    | lighthouseAudit data =>
      cases data with
      | none =>
        intro hfail
        refine ⟨dataUndefinedTypeError "url", rfl, ?_⟩
        intro hx
        simp [dataUndefinedTypeError] at hx
      | some d =>
        intro hfail
        simp [handleMessageS] at hfail
    | unknown t =>
      intro hfail
      exact ⟨"Unknown message type", rfl, by decide⟩
  · intro msg
    refine ⟨Bool.eq_false_or_eq_true _, ?_⟩
    cases msg with
    | gptRequest => exact respErrOk_gptBranch env st wf
    | getApiKey => exact respErrOk_getApiKeyBranch env st wf
    | setApiKey data => exact respErrOk_setApiKeyBranch env st data wf
    | setupConsoleLogging => exact respErrOk_setupConsoleLoggingBranch env wf
    | apiGetConsoleLogs => exact respErrOk_apiGetConsoleLogsBranch env wf
    | getCurrentPage data => exact respErrOk_getCurrentPageBranch env data wf
    | lighthouseAudit data => exact respErrOk_lighthouseAuditBranchB env data
    | unknown t =>
      intro hfail
      exact ⟨"Unknown message type", rfl, by decide⟩

/-- demoEnv is well formed: all of its external operations succeed. -/
theorem demoEnv_wf : WFEnv demoEnv := by
  constructor <;> (intro e h; simp [demoEnv] at h)

/-- Witness for claim C1: in the benign environment an unknown message type
yields a failure response with the non-empty unknown-type error. -/
theorem claim_C1_handler_total_witness :
    (handleMessageS demoEnv none (.unknown "BOGUS")).resp.success = false ∧
    ∃ e, (handleMessageS demoEnv none (.unknown "BOGUS")).resp.error =
      some e ∧ e ≠ "" :=
  ⟨rfl, ((claim_C1_handler_total demoEnv none demoEnv_wf).1
    (.unknown "BOGUS")).2 rfl⟩

/-- Claim C2: a GPT_REQUEST handled while no credential is stored fails fast
with the configuration error text, never reaches the API client, and
broadcasts the same error to the popup; moreover on every outcome the
GPT_REQUEST branch emits exactly one GPT_RESPONSE broadcast carrying the
same result it returns synchronously. -/
theorem claim_C2_gpt_request_no_credential :
    (∀ env st, env.storageGet = .ok () → jsStrOrNull st = none →
      (handleMessageS env st .gptRequest).resp =
        { success := false, error := some apiKeyMissingError } ∧
      (handleMessageS env st .gptRequest).gptSendCalled = false ∧
      (handleMessageS env st .gptRequest).broadcasts =
        [⟨"GPT_RESPONSE", .errObj apiKeyMissingError, "gpt-popup"⟩]) ∧
    (∀ env st, ∃ p,
      (handleMessageS env st .gptRequest).broadcasts =
        [⟨"GPT_RESPONSE", p, "gpt-popup"⟩] ∧
      ((∃ r, p = .gptOk r ∧ (handleMessageS env st .gptRequest).resp =
          { success := true, data := some (.gpt r) }) ∨
        (∃ e, p = .errObj e ∧ (handleMessageS env st .gptRequest).resp =
          { success := false, error := some e }))) := by
  constructor
  · intro env st hsg hkey
    have hc : gptRequestCase env st = (.error apiKeyMissingError, false) := by
      unfold gptRequestCase getStoredApiKey
      rw [hsg, hkey]
    refine ⟨?_, ?_, ?_⟩ <;> simp [handleMessageS, gptBranch, hc]
  · intro env st
    rcases hc : gptRequestCase env st with ⟨res, called⟩
    cases res with
    | ok r =>
      exact ⟨.gptOk r, by simp [handleMessageS, gptBranch, hc],
        .inl ⟨r, rfl, by simp [handleMessageS, gptBranch, hc]⟩⟩
    | error e =>
      exact ⟨.errObj e, by simp [handleMessageS, gptBranch, hc],
        .inr ⟨e, rfl, by simp [handleMessageS, gptBranch, hc]⟩⟩

/-- Witness for claim C2: the benign environment with no stored credential. -/
theorem claim_C2_gpt_request_no_credential_witness :
    (handleMessageS demoEnv none .gptRequest).resp =
      { success := false, error := some apiKeyMissingError } ∧
    (handleMessageS demoEnv none .gptRequest).gptSendCalled = false ∧
    (handleMessageS demoEnv none .gptRequest).broadcasts =
      [⟨"GPT_RESPONSE", .errObj apiKeyMissingError, "gpt-popup"⟩] :=
  claim_C2_gpt_request_no_credential.1 demoEnv none rfl rfl

/-- Claim C8 evaluated on the code: handling SET_API_KEY with key sk-test
responds success false carrying the debugLogger TypeError, because
storeApiKey dereferences the never-assigned debugLogger field after writing
the key; the storage write itself does happen, so the follow-up GET_API_KEY
still round-trips the stored string. The spec scenario expects success true,
so the response half of the claim is a code bug, not a spec error. -/
theorem claim_C8_set_key_bug :
    (handleMessageS demoEnv none (.setApiKey (some ⟨"sk-test"⟩))).resp =
      { success := false, error := some debugLoggerTypeError } ∧
    (handleMessageS demoEnv none (.setApiKey (some ⟨"sk-test"⟩))).storage =
      some "sk-test" ∧
    (handleMessageS demoEnv (some "sk-test") .getApiKey).resp =
      { success := true, data := some (.str "sk-test") } := by
  refine ⟨?_, ?_, ?_⟩ <;> decide

/-- Counterexample to claim C3 as stated: with a single browser-internal tab
open, GET_CURRENT_PAGE fails with the error text No active tab found, which
does not contain the phrase web page at all, while the claim requires a
failure carrying a no-web-page-found error for every zero-qualifying-tab
resolution. -/
theorem claim_C3_counterexample :
    (handleMessageB chromeOnlyEnv none (.getCurrentPage none)).resp.success =
      false ∧
    (handleMessageB chromeOnlyEnv none (.getCurrentPage none)).resp.error =
      some "No active tab found" ∧
    strContainsPhrase "No active tab found" "web page" = false := by
  refine ⟨?_, ?_, ?_⟩ <;> decide

/-- Claim C3 (amended): a unique active non-extension tab is always selected
regardless of access times; with no active qualifying tab the selected tab is
a qualifying tab of maximal last access; with zero qualifying tabs resolution
returns a failure response without throwing, whose error text is No active
tab found for GET_CURRENT_PAGE and No web page found to setup console logging
for SETUP_CONSOLE_LOGGING. -/
theorem claim_C3_tab_resolution_amended :
    (∀ tabs t, t ∈ tabs → t.active = true → isWebTab t = true →
      (∀ u, u ∈ tabs → u.active = true → u = t) →
      pickTab tabs = some t) ∧
    (∀ tabs, (∀ u ∈ webTabs tabs, u.active = false) → webTabs tabs ≠ [] →
      ∃ t, pickTab tabs = some t ∧ t ∈ webTabs tabs ∧
        ∀ u ∈ webTabs tabs, tabLastAccessed u ≤ tabLastAccessed t) ∧
    (∀ env st tabs, env.tabsQuery = .ok tabs → webTabs tabs = [] →
      pickTab tabs = none ∧
      (handleMessageB env st (.getCurrentPage none)).resp =
        { success := false, error := some "No active tab found" } ∧
      (handleMessageB env st .setupConsoleLogging).resp =
        { success := false,
          error := some "No web page found to setup console logging" }) := by
  refine ⟨?_, ?_, ?_⟩
  · intro tabs t ht hta htw huniq
    have htw2 : t ∈ webTabs tabs := List.mem_filter.mpr ⟨ht, htw⟩
    rcases hf : (webTabs tabs).find? (fun u => u.active) with _ | u
    · exfalso
      have h0 := List.find?_eq_none.mp hf t htw2
      simp [hta] at h0
    · have hu1 : u ∈ webTabs tabs := List.mem_of_find?_eq_some hf
      have hu2 : u.active = true := by
        have := List.find?_some hf
        simpa using this
      have hut : u = t := huniq u (List.mem_of_mem_filter hu1) hu2
      simp [pickTab, hf, hut]
  · intro tabs hna hne
    have hf : (webTabs tabs).find? (fun u => u.active) = none := by
      rw [List.find?_eq_none]
      intro u hu
      simp [hna u hu]
    have hperm := List.perm_insertionSort tabDescLe (webTabs tabs)
    rcases hms : List.insertionSort tabDescLe (webTabs tabs) with _ | ⟨t, rest⟩
    · exfalso
      rw [hms] at hperm
      exact hne hperm.nil_eq.symm
    · refine ⟨t, ?_, ?_, ?_⟩
      · simp [pickTab, hf, hms]
      · have hmem : t ∈ List.insertionSort tabDescLe (webTabs tabs) := by
          rw [hms]
          exact List.mem_cons_self t rest
        exact (List.perm_insertionSort tabDescLe (webTabs tabs)).subset hmem
      · intro u hu
        have hsorted := List.sorted_insertionSort tabDescLe (webTabs tabs)
        rw [hms] at hsorted
        have hu2 : u ∈ t :: rest := by
          rw [← hms]
          exact (List.perm_insertionSort tabDescLe (webTabs tabs)).symm.subset hu
        rcases List.mem_cons.mp hu2 with rfl | hu3
        · exact le_refl _
        · exact List.rel_of_sorted_cons hsorted u hu3
  · intro env st tabs htq hw
    have hp : pickTab tabs = none := by simp [pickTab, hw]
    refine ⟨hp, ?_, ?_⟩
    · simp [handleMessageB, plainOut, getCurrentPageBranch, htq, hp]
    · simp [handleMessageB, plainOut, setupConsoleLoggingBranch, htq, hp]

/-- Witness for the amended claim C3: the active low-access tab beats the
inactive recent one, and the browser-internal-only tab set produces the two
descriptive failures. -/
theorem claim_C3_tab_resolution_amended_witness :
    pickTab [activeWebTab, recentWebTab] = some activeWebTab ∧
    pickTab chromeOnlyTabs = none ∧
    (handleMessageB chromeOnlyEnv none (.getCurrentPage none)).resp =
      { success := false, error := some "No active tab found" } ∧
    (handleMessageB chromeOnlyEnv none .setupConsoleLogging).resp =
      { success := false,
        error := some "No web page found to setup console logging" } := by
  have h1 := claim_C3_tab_resolution_amended.1 [activeWebTab, recentWebTab]
    activeWebTab (by decide) (by decide) (by decide) (by decide)
  have h3 := claim_C3_tab_resolution_amended.2.2 chromeOnlyEnv none
    chromeOnlyTabs rfl (by decide)
  exact ⟨h1, h3.1, h3.2.1, h3.2.2⟩

/-- Counterexample to claim C9 as stated: a message whose target field is set
to the empty string, a name different from gpt-popup, is nevertheless acted
on by the gpt-popup listener and changes its state, because the source guard
tests JS truthiness and an empty-string target is falsy. -/
theorem claim_C9_counterexample :
    (gptPopupListener 0 ⟨some "", "GPT_RESPONSE", ⟨none, some "hi", none⟩⟩
      ⟨true, []⟩).2 = true ∧
    (gptPopupListener 0 ⟨some "", "GPT_RESPONSE", ⟨none, some "hi", none⟩⟩
      ⟨true, []⟩).1 ≠ ⟨true, []⟩ := by
  refine ⟨rfl, ?_⟩
  decide

/-- Claim C9 (amended): a message with a target set to a non-empty string is
dispatched only when the target equals the listener name gpt-popup, and a
mismatch leaves the listener state unchanged; a message with no target, or
with an empty-string target, is dispatched; dispatching a GPT_RESPONSE
appends exactly one chat entry. -/
theorem claim_C9_target_isolation_amended :
    (∀ now m st t, m.target = some t → t ≠ "gpt-popup" → t ≠ "" →
      gptPopupListener now m st = (st, false)) ∧
    (∀ now m st, m.target = some "gpt-popup" ∨ m.target = none →
      gptPopupListener now m st = (dispatchPopupMsg now m st, true)) ∧
    (∀ now d st,
      (dispatchPopupMsg now ⟨some "gpt-popup", "GPT_RESPONSE", d⟩
        st).messages.length = st.messages.length + 1) := by
  refine ⟨?_, ?_, ?_⟩
  · intro now m st t hmt hne hnee
    simp [gptPopupListener, jsStrOrNull, hmt, hnee, hne]
  · intro now m st hor
    rcases hor with h | h <;> simp [gptPopupListener, jsStrOrNull, h]
  · intro now d st
    cases h : jsStrOrNull d.error <;>
      simp [dispatchPopupMsg, handleGPTResponse, h]

/-- Witness for the amended claim C9: a background-targeted broadcast is
ignored, a gpt-popup-targeted one is dispatched and appends one entry. -/
theorem claim_C9_target_isolation_amended_witness :
    gptPopupListener 0
      ⟨some "background", "GPT_RESPONSE", ⟨none, some "hi", none⟩⟩
      ⟨true, []⟩ = (⟨true, []⟩, false) ∧
    gptPopupListener 0
      ⟨some "gpt-popup", "GPT_RESPONSE", ⟨none, some "hi", none⟩⟩
      ⟨true, []⟩ =
      (dispatchPopupMsg 0
        ⟨some "gpt-popup", "GPT_RESPONSE", ⟨none, some "hi", none⟩⟩
        ⟨true, []⟩, true) ∧
    (dispatchPopupMsg 0
      ⟨some "gpt-popup", "GPT_RESPONSE", ⟨none, some "hi", none⟩⟩
      ⟨true, []⟩).messages.length = 1 := by
  refine ⟨claim_C9_target_isolation_amended.1 0 _ _ "background" rfl
      (by decide) (by decide),
    claim_C9_target_isolation_amended.2.1 0 _ _ (Or.inl rfl), ?_⟩
  have h := claim_C9_target_isolation_amended.2.2 0
    ⟨none, some "hi", none⟩ ⟨true, []⟩
  simpa using h

end Ext
